import Mathlib

/-!
# Verification of the opencode-autocommit plugin core

Shallow embedding of `src/.opencode/plugins/autocommit.ts` (the shipped
plugin implementation).  JavaScript strings are modelled as `List Char`
(`JStr`): `+` becomes `++`, `.length` becomes `List.length`,
`.substring(0, n)` becomes `List.take n` (JS clamps a negative bound to 0,
matching `Int.toNat`), and `.join("\n")` becomes `String.intercalate`
lifted to lists.  JS numbers that the plugin treats as integers are
modelled as `Int`.  Host calls (git probes, session queries, the LLM
prompt) are modelled by environments that supply each call's outcome, and
the event handler returns the list of observable actions it performed.
-/

/-- JavaScript strings, modelled as lists of characters. -/
abbrev JStr := List Char

/-- Lift a Lean string literal to the `JStr` model. -/
def jstr (s : String) : JStr := s.data

/-- `Array.prototype.join("\n")` on a list of strings. -/
def joinNl (xs : List JStr) : JStr := (List.intersperse (jstr "\n") xs).flatten

/-- Characters removed by `String.prototype.trim` (the common ones). -/
def isJsWhitespace (c : Char) : Bool :=
  c == ' ' || c == '\t' || c == '\n' || c == '\r' || c == '\x0b' || c == '\x0c'

/-- `String.prototype.trim`: drop whitespace from both ends. -/
def jsTrim (s : JStr) : JStr :=
  ((s.dropWhile isJsWhitespace).reverse.dropWhile isJsWhitespace).reverse

/-- `ZAutoCommitMode = z.enum(["disabled", "worktree", "enabled"])`. -/
inductive AutoCommitMode where
  | disabled
  | worktree
  | enabled
deriving DecidableEq, Repr

/-- `ZAutoCommitSettings`: `mode` (default `worktree`), optional
`commitModel`, `maxCommitLength` (`z.number().min(100)`, default 10000).
The zod bound is a runtime check, not part of the type, so the field is a
plain `Int` here. -/
structure AutoCommitSettings where
  mode : AutoCommitMode
  commitModel : Option JStr
  maxCommitLength : Int
deriving DecidableEq, Repr

/-- A message part: `{type: string, text?: string}`.  Only parts with
`type === "text"` are ever read, so `text` is kept as a plain string. -/
structure MsgPart where
  type : JStr
  text : JStr
deriving DecidableEq, Repr

/-- `message.info`: role, id and optional `parentID`. -/
structure MsgInfo where
  role : JStr
  id : JStr
  parentID : Option JStr
deriving DecidableEq, Repr

/-- One entry of the session message list: `{info, parts}`. -/
structure MessageWithParts where
  info : MsgInfo
  parts : List MsgPart
deriving DecidableEq, Repr

/-- The `LastTurn` interface. -/
structure LastTurn where
  userMessageID : JStr
  userPrompt : JStr
  assistantResponse : JStr
deriving DecidableEq, Repr

/-- `parts.filter(p => p.type === "text").map(p => p.text)`. -/
def textsOf (parts : List MsgPart) : List JStr :=
  (parts.filter (fun p => p.type == jstr "text")).map (fun p => p.text)

/-- The backward scan of `getLastTurn`: walk `messages` from the end and
return the first entry whose `info.role` is `"user"`. -/
def lastUserMsg (messages : List MessageWithParts) : Option MessageWithParts :=
  messages.reverse.find? (fun m => m.info.role == jstr "user")

/-- `getLastTurn(messages)`: anchor on the last user message; collect the
assistant messages whose `parentID` equals the anchor's id; join the text
parts.  The assistant side is
`assistantMessages.flatMap(m => m.parts.filter(text)).map(p => p.text).join("\n")`. -/
def getLastTurn (messages : List MessageWithParts) : Option LastTurn :=
  match lastUserMsg messages with
  | none => none
  | some lastUser =>
    let assistantMessages := messages.filter (fun m =>
      m.info.role == jstr "assistant" && m.info.parentID == some lastUser.info.id)
    let userPrompt := joinNl (textsOf lastUser.parts)
    let assistantResponse :=
      joinNl ((assistantMessages.map (fun m =>
        m.parts.filter (fun p => p.type == jstr "text"))).flatten.map (fun p => p.text))
    some { userMessageID := lastUser.info.id
           userPrompt := userPrompt
           assistantResponse := assistantResponse }

/-- The truncation marker `"\n..."`. -/
def ellipsis : JStr := jstr "\n..."

/-- `truncateCommitMessage(message, maxLength)`:
return unchanged when within bound, else
`message.substring(0, maxLength - ellipsis.length) + ellipsis`
(JS `substring` clamps a negative bound to 0, hence `Int.toNat`). -/
def truncateCommitMessage (message : JStr) (maxLength : Int) : JStr :=
  if (message.length : Int) ≤ maxLength then message
  else message.take (maxLength - (ellipsis.length : Int)).toNat ++ ellipsis

/-- The commit-message template literal of the event handler:
`` `${summary}\n\n## User Prompt\n${userPrompt}\n\n## LLM Response\n${assistantResponse}` ``. -/
def composeCommitMessage (summary : JStr) (turn : LastTurn) : JStr :=
  summary ++ jstr "\n\n## User Prompt\n" ++ turn.userPrompt
    ++ jstr "\n\n## LLM Response\n" ++ turn.assistantResponse

/-- Outcome of one awaited host call: it resolves with a value or the
promise rejects (the JS `catch` sees `thrown`). -/
inductive Outcome (α : Type) where
  | ok (a : α)
  | thrown
deriving DecidableEq, Repr

/-- Environment for one `generateCommitSummary` run: the outcomes the
host returns for `session.create`, `session.prompt` and
`session.delete`.  `createData`/`promptData` carry the `.data` field of
the response (`none` models an absent `data`). -/
structure GenEnv where
  createData : Outcome (Option JStr)
  promptData : Outcome (Option (List MsgPart))
  deleteOutcome : Outcome Unit
deriving DecidableEq, Repr

/-- Observable result of `generateCommitSummary`: the returned string,
whether the ephemeral session was successfully created
(`tempSession.data` present), and whether `session.delete` was invoked
for it. -/
structure GenResult where
  summary : JStr
  sessionCreated : Bool
  deleteCalled : Bool
deriving DecidableEq, Repr

/-- The fixed fallback summary. -/
def fallbackSummary : JStr := jstr "Auto-commit"

/-- `result.data?.parts.filter(p => p.type === 'text').map(p => p.text).join("\n").trim()`:
`none` models the JS `undefined` produced when `result.data` is absent. -/
def promptSummary (data : Option (List MsgPart)) : Option JStr :=
  match data with
  | none => none
  | some parts => some (jsTrim (joinNl (textsOf parts)))

/-- `generateCommitSummary(turn, settings, client)`.  The `try` block
creates the ephemeral session, submits the prompt, reads the text parts,
deletes the session, and returns the summary; any throw lands in the
`catch`, which returns `"Auto-commit"`.  Note that `session.delete` is
only reached on the success path of the `try` block; the `catch` does
not delete.  `turn` and `settings` only shape the prompt text (and a log
line), which the environment abstracts, so they do not influence the
modelled control flow. -/
def generateCommitSummary (turn : LastTurn) (settings : AutoCommitSettings)
    (env : GenEnv) : GenResult :=
  match env.createData with
  | .thrown => { summary := fallbackSummary, sessionCreated := false, deleteCalled := false }
  | .ok none =>
    -- `if (!tempSession.data) throw new Error("Failed to create temporary session")`
    { summary := fallbackSummary, sessionCreated := false, deleteCalled := false }
  | .ok (some _sid) =>
    match env.promptData with
    | .thrown => { summary := fallbackSummary, sessionCreated := true, deleteCalled := false }
    | .ok data =>
      match promptSummary data with
      | none =>
        -- `summary` is `undefined`: `if (!summary) throw ...`
        { summary := fallbackSummary, sessionCreated := true, deleteCalled := false }
      | some summary =>
        if summary = [] then
          -- `summary` is `""`: `if (!summary) throw ...`
          { summary := fallbackSummary, sessionCreated := true, deleteCalled := false }
        else
          match env.deleteOutcome with
          | .thrown =>
            -- `session.delete` rejected: the `catch` returns the fallback
            { summary := fallbackSummary, sessionCreated := true, deleteCalled := true }
          | .ok _ => { summary := summary, sessionCreated := true, deleteCalled := true }

/-- Arguments of the `setAutoCommitSettings` tool: three optional fields
(`toolSchema.schema.string/number().optional()`), `none` = omitted. -/
structure SetArgs where
  mode : Option JStr
  commitModel : Option JStr
  maxCommitLength : Option Int
deriving DecidableEq, Repr

/-- `ZAutoCommitMode.parse`: accepts exactly the three enum strings,
throws otherwise. -/
def parseMode (s : JStr) : Option AutoCommitMode :=
  if s = jstr "disabled" then some .disabled
  else if s = jstr "worktree" then some .worktree
  else if s = jstr "enabled" then some .enabled
  else none

/-- `setSettingsTool.execute(args)`: build the `update` record —
`mode` through `ZAutoCommitMode.parse` (which may throw),
`commitModel` as `args.commitModel || undefined` (empty string becomes
`undefined`, the key stays present), `maxCommitLength` copied verbatim
with no bound check — then `Object.assign(settings, update)`.  A throw
from the mode parse is re-thrown as `Failed to update settings`, before
anything is assigned. -/
def setSettings (settings : AutoCommitSettings) (args : SetArgs) :
    Except JStr AutoCommitSettings :=
  let modeUpdate : Except JStr (Option AutoCommitMode) :=
    match args.mode with
    | none => .ok none
    | some s =>
      match parseMode s with
      | some m => .ok (some m)
      | none => .error (jstr "Failed to update settings")
  match modeUpdate with
  | .error e => .error e
  | .ok modeU =>
    let commitModelU : Option (Option JStr) :=
      match args.commitModel with
      | none => none
      | some s => some (if s = [] then none else some s)
    let maxU : Option Int := args.maxCommitLength
    .ok { mode := modeU.getD settings.mode
          commitModel :=
            match commitModelU with
            | none => settings.commitModel
            | some v => v
          maxCommitLength := maxU.getD settings.maxCommitLength }

/-- A settings file successfully parsed by
`ZAutoCommitSettings.partial().parse`: each key optional, present keys
validated (`mode` through the enum, `maxCommitLength` through
`min(100)`). -/
structure FilePartial where
  mode : Option AutoCommitMode
  commitModel : Option JStr
  maxCommitLength : Option Int
deriving DecidableEq, Repr

/-- The `min(100)` bound zod enforces on a `maxCommitLength` key present
in the settings file (the enum constraint on `mode` is captured by the
`AutoCommitMode` type itself). -/
def FilePartial.Valid (f : FilePartial) : Prop :=
  ∀ m ∈ f.maxCommitLength, 100 ≤ m

/-- Startup: `{ mode: "worktree", maxCommitLength: 10000, ...fileSettings }`,
where `fileSettings` is `null` (`none`) when the file is missing or fails
to parse.  A fresh object is built, so `commitModel` is present only when
the file provides it. -/
def initialSettings (fileLayer : Option FilePartial) : AutoCommitSettings :=
  { mode := (fileLayer.bind (fun f => f.mode)).getD .worktree
    commitModel := fileLayer.bind (fun f => f.commitModel)
    maxCommitLength := (fileLayer.bind (fun f => f.maxCommitLength)).getD 10000 }

/-- `resetSettingsTool.execute`: rebuild `defaults` exactly as at startup
and `Object.assign(settings, defaults)`.  `Object.assign` only copies
keys present in `defaults`: `mode` and `maxCommitLength` always are, but
`commitModel` is a key of `defaults` only when the file layer provides
it — otherwise the previous in-memory `commitModel` survives. -/
def resetSettings (settings : AutoCommitSettings) (fileLayer : Option FilePartial) :
    AutoCommitSettings :=
  { mode := (fileLayer.bind (fun f => f.mode)).getD .worktree
    commitModel :=
      match fileLayer.bind (fun f => f.commitModel) with
      | some m => some m
      | none => settings.commitModel
    maxCommitLength := (fileLayer.bind (fun f => f.maxCommitLength)).getD 10000 }

/-- Process-lifetime state of one plugin instance: the in-memory
settings object and the dedup marker `lastCommittedTurnID`
(initially `undefined`). -/
structure PluginState where
  settings : AutoCommitSettings
  lastCommittedTurnID : Option JStr
deriving DecidableEq, Repr

/-- Host-supplied data for one `event` callback run: the incoming event
type, the results of the `isWorktree` probe, the session-message query,
the `hasChanges` probe, the summary-generation calls, and whether the
`git commit` succeeds. -/
structure EventEnv where
  eventType : JStr
  isWorktreeResult : Bool
  messages : List MessageWithParts
  hasChangesResult : Bool
  genEnv : GenEnv
  commitSucceeds : Bool
deriving DecidableEq, Repr

/-- Observable actions of one event-handler run, in order: the
`isWorktree` git probe, the `client.session.messages` query, the
`hasChanges` git probe, the summary generation, and the
stage-and-commit attempt carrying the final message.  Log calls are not
tracked. -/
inductive HostAction where
  | worktreeProbe
  | sessionQuery
  | changeCheck
  | summaryGen
  | commitAttempt (message : JStr)
deriving DecidableEq, Repr

/-- The `event` hook of `AutoCommitPlugin`, lines 662-821 of
`autocommit.ts`: guard on `session.idle`, the `disabled` gate, the
worktree gate, the session query, `getLastTurn`, the dedup check, the
immediate `lastCommittedTurnID` write, the change check, then
summary → compose → truncate → commit.  Returns the new state and the
action trace. -/
def handleEvent (st : PluginState) (env : EventEnv) : PluginState × List HostAction :=
  if env.eventType ≠ jstr "session.idle" then (st, [])
  else if st.settings.mode = .disabled then (st, [])
  else
    let isInWorktree := env.isWorktreeResult
    if st.settings.mode = .worktree ∧ ¬ isInWorktree then (st, [.worktreeProbe])
    else
      match getLastTurn env.messages with
      | none => (st, [.worktreeProbe, .sessionQuery])
      | some turn =>
        if st.lastCommittedTurnID = some turn.userMessageID then
          (st, [.worktreeProbe, .sessionQuery])
        else
          let st1 : PluginState :=
            { st with lastCommittedTurnID := some turn.userMessageID }
          if ¬ env.hasChangesResult then
            (st1, [.worktreeProbe, .sessionQuery, .changeCheck])
          else
            let gen := generateCommitSummary turn st.settings env.genEnv
            let commitMessage := composeCommitMessage gen.summary turn
            let truncatedMessage :=
              truncateCommitMessage commitMessage st.settings.maxCommitLength
            (st1, [.worktreeProbe, .sessionQuery, .changeCheck, .summaryGen,
                   .commitAttempt truncatedMessage])

/-- Number of commit attempts in an action trace. -/
def countCommits (acts : List HostAction) : Nat :=
  acts.countP (fun a => match a with | .commitAttempt _ => true | _ => false)

/-- States a plugin instance can reach: startup from a (validated or
absent) settings file, then any sequence of tool calls and event runs.
`getAutoCommitSettings` and `initAutoCommit` do not touch the in-memory
settings; `setAutoCommitSettings` applies only when it succeeds. -/
inductive Reachable : PluginState → Prop where
  | startup (fileLayer : Option FilePartial)
      (hvalid : ∀ f ∈ fileLayer, f.Valid) :
      Reachable { settings := initialSettings fileLayer, lastCommittedTurnID := none }
  | set (st : PluginState) (args : SetArgs) (s : AutoCommitSettings)
      (hst : Reachable st) (hok : setSettings st.settings args = .ok s) :
      Reachable { st with settings := s }
  | reset (st : PluginState) (fileLayer : Option FilePartial)
      (hst : Reachable st) (hvalid : ∀ f ∈ fileLayer, f.Valid) :
      Reachable { st with settings := resetSettings st.settings fileLayer }
  | event (st : PluginState) (env : EventEnv) (hst : Reachable st) :
      Reachable (handleEvent st env).1

/-! ## Helper lemmas -/

theorem find?_eq_head?_filter {α : Type} (l : List α) (p : α → Bool) :
    l.find? p = (l.filter p).head? := by
  induction l with
  | nil => rfl
  | cons a l ih =>
    cases h : p a with
    | true => rw [List.find?_cons_of_pos _ h, List.filter_cons_of_pos h, List.head?_cons]
    | false =>
      rw [List.find?_cons_of_neg _ (by simp [h]), List.filter_cons_of_neg (by simp [h]), ih]

/-- The anchor of `getLastTurn`, as the spec phrases it: the last
user-role message in list order. -/
def lastUserSpec (messages : List MessageWithParts) : Option MessageWithParts :=
  (messages.filter (fun m => m.info.role == jstr "user")).getLast?

theorem lastUserMsg_eq_lastUserSpec (messages : List MessageWithParts) :
    lastUserMsg messages = lastUserSpec messages := by
  unfold lastUserMsg lastUserSpec
  rw [find?_eq_head?_filter, List.filter_reverse, List.head?_reverse]

/-- The assistant messages `getLastTurn` collects for a given anchor id:
role `"assistant"` and `parentID` equal to the anchor's id, in original
list order. -/
def matchingAssistants (messages : List MessageWithParts) (anchorId : JStr) :
    List MessageWithParts :=
  messages.filter (fun m =>
    m.info.role == jstr "assistant" && m.info.parentID == some anchorId)

/-- The assistant response as the claim words it: within each matching
assistant message join the text parts by `"\n"`, then join the
per-message strings by `"\n"` — so a matching message with zero text
parts contributes an empty segment to the outer join. -/
def claimedAssistantResponse (messages : List MessageWithParts) (anchorId : JStr) : JStr :=
  joinNl ((matchingAssistants messages anchorId).map (fun m => joinNl (textsOf m.parts)))

/-- Concrete history for the C6 comparison: one user message and two
assistant replies to it, the second with no text parts. -/
def exMsgsJoin : List MessageWithParts :=
  [ { info := { role := jstr "user", id := jstr "u1", parentID := none },
      parts := [{ type := jstr "text", text := jstr "Add file" }] },
    { info := { role := jstr "assistant", id := jstr "a1", parentID := some (jstr "u1") },
      parts := [{ type := jstr "text", text := jstr "Done" }] },
    { info := { role := jstr "assistant", id := jstr "a2", parentID := some (jstr "u1") },
      parts := [] } ]

/-! ## Claims -/

/-- C6 counterexample: on `exMsgsJoin`, `getLastTurn` yields
`assistantResponse = "Done"` (the zero-text-part assistant message
contributes nothing), while the claim's nested-join reading predicts
`"Done\n"` (an empty segment for it), so the claim as stated fails at
this input. -/
theorem getLastTurn_emptySegment_counterexample :
    (getLastTurn exMsgsJoin).map LastTurn.assistantResponse = some (jstr "Done") ∧
    claimedAssistantResponse exMsgsJoin (jstr "u1") = jstr "Done\n" ∧
    jstr "Done" ≠ jstr "Done\n" := by decide

/-- C6 amended: for every message list with a user message,
`getLastTurn` anchors on the last user-role message in list order;
`userPrompt` is the `"\n"`-join of the anchor's text-typed parts in part
order; and `assistantResponse` is the `"\n"`-join of the text-typed
parts of all and only assistant messages whose `parentID` equals the
anchor's id, flattened in original list/part order — an assistant
message with zero text parts contributes no segment (rather than an
empty one) to the join. -/
theorem getLastTurn_amended (messages : List MessageWithParts)
    (anchor : MessageWithParts) (h : lastUserSpec messages = some anchor) :
    getLastTurn messages = some
      { userMessageID := anchor.info.id
        userPrompt := joinNl (textsOf anchor.parts)
        assistantResponse :=
          joinNl (((matchingAssistants messages anchor.info.id).map
            (fun m => textsOf m.parts)).flatten) } := by
  have hm : lastUserMsg messages = some anchor := by
    rw [lastUserMsg_eq_lastUserSpec, h]
  unfold getLastTurn
  rw [hm]
  simp only [matchingAssistants, textsOf]
  congr 2
  rw [List.map_flatten, List.map_map]
  rfl

/-- C6 amended, witness at `exMsgsJoin`. -/
theorem getLastTurn_amended_witness :
    lastUserSpec exMsgsJoin = some
      { info := { role := jstr "user", id := jstr "u1", parentID := none },
        parts := [{ type := jstr "text", text := jstr "Add file" }] } ∧
    getLastTurn exMsgsJoin = some
      { userMessageID := jstr "u1"
        userPrompt := jstr "Add file"
        assistantResponse := jstr "Done" } :=
  ⟨by decide, by
    have := getLastTurn_amended exMsgsJoin
      { info := { role := jstr "user", id := jstr "u1", parentID := none },
        parts := [{ type := jstr "text", text := jstr "Add file" }] }
      (by decide)
    rw [this]
    decide⟩

/-- C7: for every message and every `maxLength ≥ 100`, a message within
the bound is returned unchanged; a longer message is cut to length
exactly `maxLength`, ends with `"\n..."`, and its first `maxLength - 4`
characters are the first `maxLength - 4` characters of the original. -/
theorem truncateCommitMessage_exact (message : JStr) (maxLength : Int)
    (h : 100 ≤ maxLength) :
    ((message.length : Int) ≤ maxLength →
      truncateCommitMessage message maxLength = message) ∧
    (maxLength < (message.length : Int) →
      ((truncateCommitMessage message maxLength).length : Int) = maxLength ∧
      ellipsis <:+ truncateCommitMessage message maxLength ∧
      (truncateCommitMessage message maxLength).take (maxLength - 4).toNat
        = message.take (maxLength - 4).toNat) := by
  constructor
  · intro hle
    simp [truncateCommitMessage, hle]
  · intro hgt
    have hnot : ¬ ((message.length : Int) ≤ maxLength) := by omega
    have hek : (ellipsis.length : Int) = 4 := by decide
    have hres : truncateCommitMessage message maxLength
        = message.take (maxLength - (ellipsis.length : Int)).toNat ++ ellipsis := by
      simp [truncateCommitMessage, hnot]
    have hkeq : (maxLength - (ellipsis.length : Int)).toNat = (maxLength - 4).toNat := by
      rw [hek]
    have hkle : (maxLength - 4).toNat ≤ message.length := by omega
    have hlen : (message.take (maxLength - 4).toNat).length = (maxLength - 4).toNat := by
      simp [List.length_take, Nat.min_eq_left hkle]
    refine ⟨?_, ?_, ?_⟩
    · rw [hres, hkeq]
      simp only [List.length_append, hlen]
      have he4 : ellipsis.length = 4 := by decide
      rw [he4]
      omega
    · rw [hres]
      exact List.suffix_append _ _
    · rw [hres, hkeq, List.take_left' hlen]

/-- C7 witness: a 104-character message truncated at bound 100. -/
theorem truncateCommitMessage_exact_witness :
    (100 : Int) ≤ 100 ∧
    ((truncateCommitMessage (List.replicate 104 'a') 100).length : Int) = 100 :=
  ⟨by decide,
   ((truncateCommitMessage_exact (List.replicate 104 'a') 100 (by decide)).2
     (by decide)).1⟩

/-- C2: `setAutoCommitSettings` with `maxCommitLength = 50` does not
fail — the call succeeds and stores 50 (below the documented minimum of
100) into the in-memory settings; the tool copies the field without any
bound check. -/
theorem setSettings_acceptsSmallMaxCommitLength :
    setSettings (initialSettings none)
      { mode := none, commitModel := none, maxCommitLength := some 50 }
      = .ok { mode := .worktree, commitModel := none, maxCommitLength := 50 } ∧
    (50 : Int) < 100 := ⟨rfl, by decide⟩

/-- C3: a reachable state violating the `maxCommitLength ≥ 100`
invariant — start with no settings file and call
`setAutoCommitSettings({maxCommitLength: 50})`. -/
theorem reachable_smallMaxCommitLength :
    Reachable { settings := { mode := .worktree, commitModel := none, maxCommitLength := 50 }
                lastCommittedTurnID := none } ∧
    (50 : Int) < 100 := by
  constructor
  · have h0 : Reachable { settings := initialSettings none, lastCommittedTurnID := none } :=
      Reachable.startup none (by simp)
    have h1 := Reachable.set _
      { mode := none, commitModel := none, maxCommitLength := some 50 }
      { mode := .worktree, commitModel := none, maxCommitLength := 50 }
      h0 rfl
    exact h1
  · decide

/-- C4: set `commitModel` to `"gpt-4"` via the settings tool, then
reset with no settings file: `Object.assign` has no `commitModel` key to
copy, so the explicitly-set model survives the reset instead of being
discarded. -/
theorem resetSettings_keepsCommitModel :
    setSettings (initialSettings none)
      { mode := none, commitModel := some (jstr "gpt-4"), maxCommitLength := none }
      = .ok { mode := .worktree, commitModel := some (jstr "gpt-4"), maxCommitLength := 10000 } ∧
    resetSettings
      { mode := .worktree, commitModel := some (jstr "gpt-4"), maxCommitLength := 10000 } none
      = { mode := .worktree, commitModel := some (jstr "gpt-4"), maxCommitLength := 10000 } :=
  ⟨rfl, rfl⟩

/-- C5: when the ephemeral session is created successfully but the
prompt call throws, control jumps to the `catch`, which returns the
fallback without calling `session.delete` — the session is leaked. -/
theorem generateCommitSummary_leaksSession :
    generateCommitSummary
      { userMessageID := jstr "u1", userPrompt := jstr "p", assistantResponse := jstr "r" }
      { mode := .enabled, commitModel := none, maxCommitLength := 10000 }
      { createData := .ok (some (jstr "ses1")), promptData := .thrown,
        deleteOutcome := .ok () }
      = { summary := fallbackSummary, sessionCreated := true, deleteCalled := false } := by
  decide

/-- C10: `setAutoCommitSettings` maps an empty-string `commitModel` to
`undefined` (unset), stores any non-empty `commitModel` verbatim, and
leaves the previous value untouched when the field is omitted. -/
theorem setSettings_commitModel_semantics (st : AutoCommitSettings) (s : JStr)
    (args : SetArgs) (hs : s ≠ []) :
    setSettings st { mode := none, commitModel := some [], maxCommitLength := none }
      = .ok { st with commitModel := none } ∧
    setSettings st { mode := none, commitModel := some s, maxCommitLength := none }
      = .ok { st with commitModel := some s } ∧
    (args.commitModel = none → ∀ r, setSettings st args = .ok r →
      r.commitModel = st.commitModel) := by
  refine ⟨rfl, ?_, ?_⟩
  · simp [setSettings, hs]
  · intro hcm r hr
    unfold setSettings at hr
    simp only [hcm] at hr
    cases hargs : args.mode with
    | none =>
      simp only [hargs] at hr
      cases hr
      rfl
    | some m =>
      simp only [hargs] at hr
      cases hp : parseMode m with
      | none =>
        simp only [hp] at hr
        exact Except.noConfusion hr
      | some md =>
        simp only [hp] at hr
        cases hr
        rfl

/-- C10 witness: empty string unsets a previously-set model; a concrete
non-empty model string is stored verbatim. -/
theorem setSettings_commitModel_semantics_witness :
    setSettings { mode := .worktree, commitModel := some (jstr "old"), maxCommitLength := 10000 }
      { mode := none, commitModel := some [], maxCommitLength := none }
      = .ok { mode := .worktree, commitModel := none, maxCommitLength := 10000 } ∧
    setSettings { mode := .worktree, commitModel := some (jstr "old"), maxCommitLength := 10000 }
      { mode := none, commitModel := some (jstr "gpt-5"), maxCommitLength := none }
      = .ok { mode := .worktree, commitModel := some (jstr "gpt-5"), maxCommitLength := 10000 } :=
  ⟨(setSettings_commitModel_semantics
      { mode := .worktree, commitModel := some (jstr "old"), maxCommitLength := 10000 }
      (jstr "gpt-5") { mode := none, commitModel := none, maxCommitLength := none }
      (by decide)).1,
   (setSettings_commitModel_semantics
      { mode := .worktree, commitModel := some (jstr "old"), maxCommitLength := 10000 }
      (jstr "gpt-5") { mode := none, commitModel := none, maxCommitLength := none }
      (by decide)).2.1⟩


/-- C8: with a `session.idle` event, `disabled` mode returns before the
worktree probe, the session query and the change check (no actions at
all); `worktree` mode with a negative probe returns right after the
probe, before the session query; `worktree` mode with a positive probe
and `enabled` mode (regardless of the probe) proceed to the session
query. -/
theorem handleEvent_modeGating (st : PluginState) (env : EventEnv)
    (hidle : env.eventType = jstr "session.idle") :
    (st.settings.mode = .disabled → handleEvent st env = (st, [])) ∧
    (st.settings.mode = .worktree → env.isWorktreeResult = false →
      handleEvent st env = (st, [.worktreeProbe])) ∧
    (st.settings.mode = .worktree → env.isWorktreeResult = true →
      HostAction.sessionQuery ∈ (handleEvent st env).2) ∧
    (st.settings.mode = .enabled →
      HostAction.sessionQuery ∈ (handleEvent st env).2) := by
  refine ⟨?_, ?_, ?_, ?_⟩
  · intro hmode
    simp [handleEvent, hidle, hmode]
  · intro hmode hw
    simp [handleEvent, hidle, hmode, hw]
  · intro hmode hw
    unfold handleEvent
    cases hg : getLastTurn env.messages with
    | none => simp [hidle, hmode, hw, hg]
    | some turn =>
      simp only [hidle, hmode, hw, hg]
      split_ifs <;> simp_all
  · intro hmode
    unfold handleEvent
    cases hg : getLastTurn env.messages with
    | none => simp [hidle, hmode, hg]
    | some turn =>
      simp only [hidle, hmode, hg]
      split_ifs <;> simp_all

/-- C8 witness: a disabled-mode instance on a concrete idle event does
nothing. -/
theorem handleEvent_modeGating_witness :
    handleEvent
      { settings := { mode := .disabled, commitModel := none, maxCommitLength := 10000 }
        lastCommittedTurnID := none }
      { eventType := jstr "session.idle", isWorktreeResult := false, messages := []
        hasChangesResult := false
        genEnv := { createData := .thrown, promptData := .thrown, deleteOutcome := .thrown }
        commitSucceeds := false }
      = ({ settings := { mode := .disabled, commitModel := none, maxCommitLength := 10000 }
           lastCommittedTurnID := none }, []) :=
  (handleEvent_modeGating _ _ (by decide)).1 rfl

theorem countCommits_append (a b : List HostAction) :
    countCommits (a ++ b) = countCommits a + countCommits b := by
  simp [countCommits, List.countP_append]

theorem countCommits_handleEvent_le_one (st : PluginState) (env : EventEnv) :
    countCommits (handleEvent st env).2 ≤ 1 := by
  simp only [handleEvent]
  repeat' split
  all_goals simp [countCommits, List.countP_cons]

theorem handleEvent_cases (st : PluginState) (env : EventEnv) (t : LastTurn)
    (h : getLastTurn env.messages = some t) :
    ((handleEvent st env).1 = st ∧ countCommits (handleEvent st env).2 = 0) ∨
    (handleEvent st env).1.lastCommittedTurnID = some t.userMessageID := by
  simp only [handleEvent]
  repeat' split
  all_goals first
    | exact Or.inl ⟨rfl, by simp [countCommits]⟩
    | (right; simp_all)

theorem handleEvent_skip_marked (st : PluginState) (env : EventEnv) (t : LastTurn)
    (h : getLastTurn env.messages = some t)
    (hm : st.lastCommittedTurnID = some t.userMessageID) :
    countCommits (handleEvent st env).2 = 0 ∧
    HostAction.summaryGen ∉ (handleEvent st env).2 ∧
    HostAction.changeCheck ∉ (handleEvent st env).2 := by
  simp only [handleEvent]
  repeat' split
  all_goals simp_all [countCommits, List.countP_cons]

theorem handleEvent_sets_marker (st : PluginState) (env : EventEnv) (t : LastTurn)
    (h : getLastTurn env.messages = some t)
    (hidle : env.eventType = jstr "session.idle")
    (hmode : st.settings.mode ≠ .disabled)
    (hgate : st.settings.mode = .worktree → env.isWorktreeResult = true)
    (hnew : st.lastCommittedTurnID ≠ some t.userMessageID) :
    (handleEvent st env).1.lastCommittedTurnID = some t.userMessageID := by
  simp only [handleEvent]
  repeat' split
  all_goals simp_all

/-- C1 amended: `lastCommittedTurnID` is a single slot, so the dedup
guarantee holds for as long as the marker still holds an id, not until
the process restarts.  Precisely: two successive event runs whose
sessions yield the same latest `userMessageID` produce at most one
commit attempt in total; whenever a run passes the gates and the dedup
check, the marker is set to that id (even when the change check,
summary or commit afterwards skip or fail) — i.e. immediately after the
dedup check and before the change check, summary generation and commit
execution; and while the marker holds the id, a run for the same id
performs no change check, no summary generation and no commit — it is
a skip. -/
theorem handleEvent_dedup (st : PluginState) (env1 env2 : EventEnv) (t1 t2 : LastTurn)
    (h1 : getLastTurn env1.messages = some t1)
    (h2 : getLastTurn env2.messages = some t2)
    (hsame : t2.userMessageID = t1.userMessageID) :
    countCommits ((handleEvent st env1).2
        ++ (handleEvent (handleEvent st env1).1 env2).2) ≤ 1 ∧
    (env1.eventType = jstr "session.idle" → st.settings.mode ≠ .disabled →
      (st.settings.mode = .worktree → env1.isWorktreeResult = true) →
      st.lastCommittedTurnID ≠ some t1.userMessageID →
      (handleEvent st env1).1.lastCommittedTurnID = some t1.userMessageID) ∧
    ((handleEvent st env1).1.lastCommittedTurnID = some t1.userMessageID →
      countCommits (handleEvent (handleEvent st env1).1 env2).2 = 0 ∧
      HostAction.summaryGen ∉ (handleEvent (handleEvent st env1).1 env2).2 ∧
      HostAction.changeCheck ∉ (handleEvent (handleEvent st env1).1 env2).2) := by
  refine ⟨?_, ?_, ?_⟩
  · rw [countCommits_append]
    by_cases hm : (handleEvent st env1).1.lastCommittedTurnID = some t1.userMessageID
    · have hskip := (handleEvent_skip_marked _ env2 t2 h2 (by rw [hsame]; exact hm)).1
      have hle := countCommits_handleEvent_le_one st env1
      omega
    · rcases handleEvent_cases st env1 t1 h1 with ⟨hst, hcnt⟩ | hmark
      · have hle2 := countCommits_handleEvent_le_one (handleEvent st env1).1 env2
        omega
      · exact absurd hmark hm
  · intro hidle hmode hgate hnew
    exact handleEvent_sets_marker st env1 t1 h1 hidle hmode hgate hnew
  · intro hm
    exact handleEvent_skip_marked _ env2 t2 h2 (by rw [hsame]; exact hm)

/-- Environment for the C1 witness: an idle event over a session with a
single user message. -/
def exEnvDedup : EventEnv :=
  { eventType := jstr "session.idle", isWorktreeResult := true
    messages :=
      [ { info := { role := jstr "user", id := jstr "u1", parentID := none }
          parts := [{ type := jstr "text", text := jstr "hi" }] } ]
    hasChangesResult := true
    genEnv := { createData := .thrown, promptData := .thrown, deleteOutcome := .thrown }
    commitSucceeds := true }

/-- The turn `exEnvDedup`'s message list yields. -/
def exTurnDedup : LastTurn :=
  { userMessageID := jstr "u1", userPrompt := jstr "hi", assistantResponse := [] }

/-- C1 witness: running the handler twice on the same concrete session
yields at most one commit attempt. -/
theorem handleEvent_dedup_witness :
    getLastTurn exEnvDedup.messages = some exTurnDedup ∧
    countCommits ((handleEvent
        { settings := { mode := .enabled, commitModel := none, maxCommitLength := 10000 }
          lastCommittedTurnID := none } exEnvDedup).2
      ++ (handleEvent (handleEvent
        { settings := { mode := .enabled, commitModel := none, maxCommitLength := 10000 }
          lastCommittedTurnID := none } exEnvDedup).1 exEnvDedup).2) ≤ 1 :=
  ⟨by decide,
   (handleEvent_dedup
      { settings := { mode := .enabled, commitModel := none, maxCommitLength := 10000 }
        lastCommittedTurnID := none }
      exEnvDedup exEnvDedup exTurnDedup exTurnDedup (by decide) (by decide) rfl).1⟩

/-- An idle event over a different session whose latest turn has a
different `userMessageID` (`v1`), used to overwrite the dedup marker
between two events for `u1`. -/
def exEnvDedupB : EventEnv :=
  { eventType := jstr "session.idle", isWorktreeResult := true
    messages :=
      [ { info := { role := jstr "user", id := jstr "v1", parentID := none }
          parts := [{ type := jstr "text", text := jstr "other" }] } ]
    hasChangesResult := true
    genEnv := { createData := .thrown, promptData := .thrown, deleteOutcome := .thrown }
    commitSucceeds := true }

/-- C1 counterexample: the marker does not persist "until the process
restarts".  From a fresh enabled-mode state, an idle event for turn
`u1` runs the pipeline (one commit attempt) and sets the marker to
`u1`; an intervening event for turn `v1` overwrites the single-slot
marker; a third event whose latest turn is `u1` again then runs the
full commit pipeline for the same `userMessageID` a second time. -/
theorem handleEvent_dedup_counterexample :
    (getLastTurn exEnvDedup.messages).map LastTurn.userMessageID = some (jstr "u1") ∧
    countCommits (handleEvent
      { settings := { mode := .enabled, commitModel := none, maxCommitLength := 10000 }
        lastCommittedTurnID := none } exEnvDedup).2 = 1 ∧
    (handleEvent
      { settings := { mode := .enabled, commitModel := none, maxCommitLength := 10000 }
        lastCommittedTurnID := none } exEnvDedup).1.lastCommittedTurnID
      = some (jstr "u1") ∧
    countCommits (handleEvent (handleEvent (handleEvent
      { settings := { mode := .enabled, commitModel := none, maxCommitLength := 10000 }
        lastCommittedTurnID := none } exEnvDedup).1 exEnvDedupB).1 exEnvDedup).2 = 1 := by
  decide

/-- The delegate-failure condition of C9: the ephemeral-session creation
rejects or returns no data, the prompt call rejects, or the prompt
resolves with an absent/empty text result. -/
def delegateFails (env : GenEnv) : Prop :=
  env.createData = .thrown ∨ env.createData = .ok none ∨
  env.promptData = .thrown ∨
  (∃ d, env.promptData = .ok d ∧
    (promptSummary d = none ∨ promptSummary d = some []))

/-- C9: whenever the text-generation delegate fails at any step,
`generateCommitSummary` returns exactly `"Auto-commit"`, and an event
run that passes all gates still composes, truncates and attempts the
commit with that fallback summary. -/
theorem generateCommitSummary_fallback (st : PluginState) (env : EventEnv) (turn : LastTurn)
    (hidle : env.eventType = jstr "session.idle")
    (hmode : st.settings.mode ≠ .disabled)
    (hgate : st.settings.mode = .worktree → env.isWorktreeResult = true)
    (hturn : getLastTurn env.messages = some turn)
    (hnew : st.lastCommittedTurnID ≠ some turn.userMessageID)
    (hch : env.hasChangesResult = true)
    (hfail : delegateFails env.genEnv) :
    (generateCommitSummary turn st.settings env.genEnv).summary = fallbackSummary ∧
    (handleEvent st env).2 =
      [.worktreeProbe, .sessionQuery, .changeCheck, .summaryGen,
       .commitAttempt (truncateCommitMessage (composeCommitMessage fallbackSummary turn)
         st.settings.maxCommitLength)] := by
  have hsum : (generateCommitSummary turn st.settings env.genEnv).summary = fallbackSummary := by
    unfold generateCommitSummary
    rcases hfail with hf | hf | hf | ⟨d, hd, hps⟩
    · rw [hf]
    · rw [hf]
    · rcases hc : env.genEnv.createData with a | _
      · cases a with
        | none => rfl
        | some sid => rw [hf]
      · rfl
    · rcases hc : env.genEnv.createData with a | _
      · cases a with
        | none => rfl
        | some sid =>
          rw [hd]
          rcases hps with hps | hps <;> simp [hps]
      · rfl
  refine ⟨hsum, ?_⟩
  simp only [handleEvent]
  repeat' split
  all_goals simp_all

/-- Environment for the C9 witness: same concrete session, with the
ephemeral-session creation rejecting. -/
def exEnvFallback : EventEnv :=
  { eventType := jstr "session.idle", isWorktreeResult := false
    messages :=
      [ { info := { role := jstr "user", id := jstr "u2", parentID := none }
          parts := [{ type := jstr "text", text := jstr "fix bug" }] } ]
    hasChangesResult := true
    genEnv := { createData := .thrown, promptData := .ok none, deleteOutcome := .ok () }
    commitSucceeds := true }

/-- The turn `exEnvFallback`'s message list yields. -/
def exTurnFallback : LastTurn :=
  { userMessageID := jstr "u2", userPrompt := jstr "fix bug", assistantResponse := [] }

/-- C9 witness: with session creation rejecting, the summary is the
fallback string. -/
theorem generateCommitSummary_fallback_witness :
    delegateFails exEnvFallback.genEnv ∧
    (generateCommitSummary exTurnFallback
      { mode := .enabled, commitModel := none, maxCommitLength := 10000 }
      exEnvFallback.genEnv).summary = fallbackSummary :=
  ⟨Or.inl rfl,
   (generateCommitSummary_fallback
      { settings := { mode := .enabled, commitModel := none, maxCommitLength := 10000 }
        lastCommittedTurnID := none }
      exEnvFallback exTurnFallback (by decide) (by decide) (by decide) (by decide)
      (by decide) rfl (Or.inl rfl)).1⟩
